import Mathlib

/-!
Verification development for the qmd remote inference layer:
the HTTP inference server (`startRemoteServer` in remote-server.ts),
the remote proxy client (`RemoteLLM` in remote-llm.ts), and the
credential store (auth.ts).  JSON values are modelled by an inductive
type (numbers as integers; floating point is out of scope), the wire
serialisation between client and server is modelled as the identity on
parsed JSON values, and the inference engine is an abstract black box.
-/

set_option maxRecDepth 10000

/-- A JSON value.  Numbers are modelled as integers. -/
inductive Json where
  | null
  | bool (b : Bool)
  | num (n : Int)
  | str (s : String)
  | arr (elems : List Json)
  | obj (fields : List (String × Json))

/-- JavaScript truthiness of a JSON value (used by `data.token || null`
and similar patterns in the source). -/
def jsTruthy : Json → Bool
  | .null => false
  | .bool b => b
  | .num n => n != 0
  | .str s => s != ""
  | .arr _ => true
  | .obj _ => true

/-- Lookup of a field in the field list of a parsed JSON object. -/
def lookupField : List (String × Json) → String → Option Json
  | [], _ => none
  | (k, v) :: rest, key => if k == key then some v else lookupField rest key

/-- JavaScript property access `value.key` on a parsed JSON value:
`some v` when the object has the field, `none` for a missing field or a
non-object value (the `undefined` outcome). -/
def jsGetField : Json → String → Option Json
  | .obj fields, key => lookupField fields key
  | _, _ => none

/-- One hexadecimal digit, lower case. -/
def hexDigit (n : Nat) : Char :=
  if n < 10 then Char.ofNat (48 + n) else Char.ofNat (87 + n)

/-- JSON string escaping of one character, as produced by
`JSON.stringify`. -/
def escapeJsonChar (c : Char) : String :=
  if c = '"' then "\\\""
  else if c = '\\' then "\\\\"
  else if c = '\n' then "\\n"
  else if c = '\r' then "\\r"
  else if c = '\t' then "\\t"
  else if c = '\x08' then "\\b"
  else if c = '\x0c' then "\\f"
  else if c.toNat < 32 then
    "\\u00" ++ String.mk [hexDigit (c.toNat / 16), hexDigit (c.toNat % 16)]
  else String.mk [c]

/-- JSON string literal with surrounding quotes, as produced by
`JSON.stringify` on a string. -/
def quoteJson (s : String) : String :=
  "\"" ++ String.join (s.data.map escapeJsonChar) ++ "\""

mutual

/-- The compact serialisation `JSON.stringify(data)` used by `sendJSON`. -/
def stringify : Json → String
  | .null => "null"
  | .bool true => "true"
  | .bool false => "false"
  | .num n => toString n
  | .str s => quoteJson s
  | .arr elems => "[" ++ stringifyArr elems ++ "]"
  | .obj fields => "\x7b" ++ stringifyObj fields ++ "\x7d"

/-- Comma-separated serialisation of JSON array elements. -/
def stringifyArr : List Json → String
  | [] => ""
  | [x] => stringify x
  | x :: xs => stringify x ++ "," ++ stringifyArr xs

/-- Comma-separated serialisation of JSON object fields. -/
def stringifyObj : List (String × Json) → String
  | [] => ""
  | [(k, v)] => quoteJson k ++ ":" ++ stringify v
  | (k, v) :: fs => quoteJson k ++ ":" ++ stringify v ++ "," ++ stringifyObj fs

end

/-- Modelled from the spec: the Inference Engine interface (`LlamaCpp`
in llm.ts, outside the excerpt) as a black box.  Each operation maps the
JavaScript values passed at its call site (`none` models `undefined`) to
either a JSON-serialisable result (`Except.ok`) or a thrown error whose
message is the carried string (`Except.error`).  `tokenize`,
`countTokens` and `detokenize` return their primitive results directly. -/
structure Engine where
  embed : Option Json → Option Json → Except String Json
  embedBatch : Option Json → Except String Json
  generate : Option Json → Option Json → Except String Json
  expandQuery : Option Json → Option Json → Except String Json
  rerank : Option Json → Option Json → Option Json → Except String Json
  tokenize : Option Json → Except String (List Int)
  countTokens : Option Json → Except String Int
  detokenize : Option Json → Except String String
  modelExists : Option Json → Except String Json
  getDeviceInfo : Except String Json

/-- An incoming HTTP request as seen by the server handler.  `body` is
the outcome of reading and JSON-parsing the request body: `none` when
reading fails or the raw body is not valid JSON, `some j` for the parsed
value (the server only ever consumes the body through `JSON.parse`). -/
structure Request where
  method : String
  path : String
  authorization : Option String
  body : Option Json

/-- An HTTP response produced by the server: a status code and the JSON
value passed to `sendJSON`. -/
structure Response where
  status : Nat
  body : Json

/-- Helper `sendJSON(res, status, data)` from remote-server.ts. -/
def sendJSON (status : Nat) (data : Json) : Response :=
  { status := status, body := data }

/-- The error body object built by `sendError`. -/
def errObj (message : String) : Json :=
  Json.obj [("error", Json.str message)]

/-- Helper `sendError(res, status, message)` from remote-server.ts. -/
def sendError (status : Nat) (message : String) : Response :=
  sendJSON status (errObj message)

@[simp] theorem sendJSON_status (st : Nat) (d : Json) : (sendJSON st d).status = st := rfl

@[simp] theorem sendJSON_body (st : Nat) (d : Json) : (sendJSON st d).body = d := rfl

@[simp] theorem sendError_status (st : Nat) (m : String) : (sendError st m).status = st := rfl

@[simp] theorem sendError_body (st : Nat) (m : String) : (sendError st m).body = errObj m := rfl

/-- Whitespace characters matched by the JavaScript regex class `\s`
(restricted to the common ASCII whitespace plus no-break space). -/
def isJsSpace (c : Char) : Bool :=
  c = ' ' || c = '\t' || c = '\n' || c = '\r' || c = '\x0b' || c = '\x0c' || c = ' '

/-- The header transformation
`authorization.replace(/^Bearer\s+/i, "")`: remove a leading
case-insensitive "Bearer" followed by one or more whitespace characters
(the whole whitespace run); leave the string unchanged when the prefix
does not match. -/
def stripBearer (h : String) : String :=
  match h.data with
  | c1 :: c2 :: c3 :: c4 :: c5 :: c6 :: rest =>
    if [c1, c2, c3, c4, c5, c6].map Char.toLower == ['b', 'e', 'a', 'r', 'e', 'r'] then
      match rest with
      | [] => h
      | c :: _ =>
        if isJsSpace c then String.mk (rest.dropWhile isJsSpace) else h
    else h
  | _ => h

/-- JavaScript truthiness of `authToken : string | null` as used by
`if (authToken)`: a present, non-empty string. -/
def optStrTruthy : Option String → Bool
  | none => false
  | some s => s != ""

/-- The `req.method?.toUpperCase()` normalisation of the request method
(character-wise upper casing, which agrees with JavaScript on ASCII
method names). -/
def jsToUpper (s : String) : String :=
  String.mk (s.data.map Char.toUpper)

/-- The authentication check at the top of the request handler: with a
truthy configured token, the request passes exactly when the
authorization header, after `stripBearer`, equals the token; with no
truthy token configured, every request passes. -/
def authPasses (authToken : Option String) (req : Request) : Bool :=
  !(optStrTruthy authToken && (req.authorization.map stripBearer != authToken))

/-- The message substitution `err.message || "Internal server error"` in
the request handler catch block. -/
def errorFallback (message : String) : String :=
  if message == "" then "Internal server error" else message

/-- Wrapping of one engine invocation inside the handler try/catch: a
successful result is sent as 200 with the JSON-serialised result, a
thrown error as 500 with the (fallback-substituted) message. -/
def wrapEngine (r : Except String Json) : Response :=
  match r with
  | .ok j => sendJSON 200 j
  | .error m => sendError 500 (errorFallback m)

/-- The TypeError message thrown when destructuring a null body
(`const { text } = body` with `body === null`).  The exact wording is
produced by the JavaScript runtime; it is modelled by this fixed
non-empty string. -/
def destructureMsg (prop : String) : String :=
  "Cannot destructure property " ++ prop ++ " of body as it is null."

/-- Each route handler begins with `const { ... } = body`; a null body
makes that destructuring throw, which the surrounding catch turns into a
500 response.  Any other body continues with the route handler `k`. -/
def destructureGuard (body : Json) (prop : String) (k : Response) : Response :=
  match body with
  | .null => sendError 500 (destructureMsg prop)
  | _ => k

/-- The POST routing switch of the request handler (remote-server.ts
lines 149-221): exact path match, field extraction from the parsed
body, engine invocation wrapped by try/catch, and the 404 default. -/
def handlePost (llm : Engine) (path : String) (body : Json) : Response :=
  if path == "/embed" then
    destructureGuard body "text"
      (wrapEngine (llm.embed (jsGetField body "text") (jsGetField body "options")))
  else if path == "/embed-batch" then
    destructureGuard body "texts"
      (wrapEngine (llm.embedBatch (jsGetField body "texts")))
  else if path == "/generate" then
    destructureGuard body "prompt"
      (wrapEngine (llm.generate (jsGetField body "prompt") (jsGetField body "options")))
  else if path == "/expand-query" then
    destructureGuard body "query"
      (wrapEngine (llm.expandQuery (jsGetField body "query") (jsGetField body "options")))
  else if path == "/rerank" then
    destructureGuard body "query"
      (wrapEngine (llm.rerank (jsGetField body "query") (jsGetField body "documents")
        (jsGetField body "options")))
  else if path == "/tokenize" then
    destructureGuard body "text"
      (wrapEngine ((llm.tokenize (jsGetField body "text")).map
        (fun ts => Json.obj [("tokens", Json.arr (ts.map Json.num))])))
  else if path == "/count-tokens" then
    destructureGuard body "text"
      (wrapEngine ((llm.countTokens (jsGetField body "text")).map
        (fun n => Json.obj [("count", Json.num n)])))
  else if path == "/detokenize" then
    destructureGuard body "tokens"
      (wrapEngine ((llm.detokenize (jsGetField body "tokens")).map
        (fun s => Json.obj [("text", Json.str s)])))
  else if path == "/model-exists" then
    destructureGuard body "model"
      (wrapEngine (llm.modelExists (jsGetField body "model")))
  else
    sendError 404 ("Unknown route: " ++ path)

/-- The request processing that follows a passed authentication check:
health endpoint, device endpoint, 405 for non-POST methods, 400 for an
unreadable or unparsable body, then the POST routing switch. -/
def routeRequest (llm : Engine) (uptime : Int) (req : Request) : Response :=
  if req.path == "/health" && jsToUpper req.method == "GET" then
    sendJSON 200 (Json.obj [("status", Json.str "ok"), ("uptime", Json.num uptime)])
  else if req.path == "/device" && jsToUpper req.method == "GET" then
    match llm.getDeviceInfo with
    | .ok info => sendJSON 200 info
    | .error m => sendError 500 m
  else if jsToUpper req.method != "POST" then
    sendError 405 "Method not allowed"
  else
    match req.body with
    | none => sendError 400 "Invalid JSON body"
    | some body => handlePost llm req.path body

/-- The per-request handler passed to `createServer` in
`startRemoteServer`: the authentication check runs first and stops the
request with 401 on failure; otherwise the request is routed. -/
def handleRequest (authToken : Option String) (llm : Engine) (uptime : Int)
    (req : Request) : Response :=
  if authPasses authToken req then routeRequest llm uptime req
  else sendError 401 "Unauthorized"

/-- The listener serving a stream of requests: each request is handled
independently by the same total handler (the server holds no per-request
mutable state). -/
def serveAll (authToken : Option String) (llm : Engine) (uptime : Int)
    (reqs : List Request) : List Response :=
  reqs.map (handleRequest authToken llm uptime)

/-- The response of one `fetch` call as consumed by the proxy client:
the HTTP status, the best-effort text of the body (`none` when
`resp.text()` rejects, which the client tolerates as the empty string),
and the JSON parse of the body (`none` when `resp.json()` would
reject). -/
structure HttpResp where
  status : Nat
  bodyText : Option String
  bodyJson : Option Json

/-- The `resp.ok` predicate of fetch: status in the range 200-299. -/
def respOk (r : HttpResp) : Bool :=
  200 ≤ r.status && r.status ≤ 299

namespace RemoteLLM

/-- The response handling shared by `RemoteLLM.post` and
`RemoteLLM.get`: a non-ok status reads the body text (failure tolerated
as empty) and throws an error naming the path, the status and the body
text; an ok status returns the parsed JSON body (the rejection message
of a failing `resp.json()` is runtime-generated and modelled by a fixed
string). -/
def handleResponse (path : String) (r : HttpResp) : Except String Json :=
  if respOk r then
    match r.bodyJson with
    | some j => Except.ok j
    | none => Except.error "Unexpected end of JSON input"
  else
    Except.error ("QMD remote " ++ path ++ " failed (" ++ toString r.status ++ "): " ++
      r.bodyText.getD "")

end RemoteLLM

/-- One proxy-client operation together with its call arguments, as
exposed by the `RemoteLLM` methods.  Optional `options` arguments are
JSON values (`none` models an omitted argument); `rerank` documents are
the JSON serialisations of the passed document objects. -/
inductive Op where
  | embed (text : String) (options : Option Json)
  | embedBatch (texts : List String)
  | generate (prompt : String) (options : Option Json)
  | expandQuery (query : String) (options : Option Json)
  | rerank (query : String) (documents : List Json) (options : Option Json)
  | tokenize (text : String)
  | countTokens (text : String)
  | detokenize (tokens : List Int)
  | modelExists (model : String)
  | deviceInfo

/-- The server path each `RemoteLLM` method requests. -/
def opPath : Op → String
  | .embed _ _ => "/embed"
  | .embedBatch _ => "/embed-batch"
  | .generate _ _ => "/generate"
  | .expandQuery _ _ => "/expand-query"
  | .rerank _ _ _ => "/rerank"
  | .tokenize _ => "/tokenize"
  | .countTokens _ => "/count-tokens"
  | .detokenize _ => "/detokenize"
  | .modelExists _ => "/model-exists"
  | .deviceInfo => "/device"

/-- An optional field of a request body: `JSON.stringify` drops object
fields holding `undefined`, so an omitted options argument produces no
field at all. -/
def optField (key : String) : Option Json → List (String × Json)
  | none => []
  | some v => [(key, v)]

/-- The JSON request body each `RemoteLLM` method builds for its POST
call (`deviceInfo` issues a bodyless GET and is given a placeholder). -/
def encodeBody : Op → Json
  | .embed text options => Json.obj (("text", Json.str text) :: optField "options" options)
  | .embedBatch texts => Json.obj [("texts", Json.arr (texts.map Json.str))]
  | .generate prompt options => Json.obj (("prompt", Json.str prompt) :: optField "options" options)
  | .expandQuery query options => Json.obj (("query", Json.str query) :: optField "options" options)
  | .rerank query documents options =>
    Json.obj (("query", Json.str query) :: ("documents", Json.arr documents) ::
      optField "options" options)
  | .tokenize text => Json.obj [("text", Json.str text)]
  | .countTokens text => Json.obj [("text", Json.str text)]
  | .detokenize tokens => Json.obj [("tokens", Json.arr (tokens.map Json.num))]
  | .modelExists model => Json.obj [("model", Json.str model)]
  | .deviceInfo => Json.null

/-- The Authorization header the proxy client attaches: present exactly
when the configured token is truthy (`if (this.authToken)`). -/
def clientAuthHeader : Option String → Option String
  | none => none
  | some t => if t == "" then none else some ("Bearer " ++ t)

/-- The HTTP request a `RemoteLLM` method issues for an operation, as
received by the server: POST with the encoded JSON body for inference
operations, bodyless GET for `getDeviceInfo`. -/
def clientRequest (authToken : Option String) (op : Op) : Request :=
  match op with
  | .deviceInfo =>
    { method := "GET", path := opPath op,
      authorization := clientAuthHeader authToken, body := none }
  | _ =>
    { method := "POST", path := opPath op,
      authorization := clientAuthHeader authToken, body := some (encodeBody op) }

/-- The per-operation unwrapping a `RemoteLLM` method applies to the
parsed response: `tokenize` reads `result.tokens`, `countTokens` reads
`result.count`, `detokenize` reads `result.text`, every other operation
returns the parsed body unchanged.  `none` models the `undefined`
produced by reading a missing field. -/
def clientExtract : Op → Json → Option Json
  | .tokenize _, j => jsGetField j "tokens"
  | .countTokens _, j => jsGetField j "count"
  | .detokenize _, j => jsGetField j "text"
  | _, j => some j

/-- The fetch response delivered to the client when the server answers
with `resp`: the wire serialisation is modelled as the identity on
parsed JSON values, so `resp.json()` yields the very value the server
passed to `sendJSON` and `resp.text()` its serialisation. -/
def serverHttpResp (resp : Response) : HttpResp :=
  { status := resp.status, bodyText := some (stringify resp.body),
    bodyJson := some resp.body }

/-- Invoking an operation directly on the inference engine, with the
results of `tokenize`, `countTokens` and `detokenize` injected into JSON
(token sequences as integer arrays) so that both call paths land in a
common value universe. -/
def directCall (e : Engine) : Op → Except String Json
  | .embed text options => e.embed (some (Json.str text)) options
  | .embedBatch texts => e.embedBatch (some (Json.arr (texts.map Json.str)))
  | .generate prompt options => e.generate (some (Json.str prompt)) options
  | .expandQuery query options => e.expandQuery (some (Json.str query)) options
  | .rerank query documents options =>
    e.rerank (some (Json.str query)) (some (Json.arr documents)) options
  | .tokenize text => (e.tokenize (some (Json.str text))).map (fun ts => Json.arr (ts.map Json.num))
  | .countTokens text => (e.countTokens (some (Json.str text))).map Json.num
  | .detokenize tokens => (e.detokenize (some (Json.arr (tokens.map Json.num)))).map Json.str
  | .modelExists model => e.modelExists (some (Json.str model))
  | .deviceInfo => e.getDeviceInfo

/-- Invoking an operation on the proxy client against a server that is
configured with token `authToken`, backed by engine `e` and reporting
uptime `uptime`: the client request is handled by the server handler and
the response interpreted by the client response handling and per-op
unwrapping. -/
def remoteCall (authToken : Option String) (e : Engine) (uptime : Int) (op : Op) :
    Except String (Option Json) :=
  match RemoteLLM.handleResponse (opPath op)
      (serverHttpResp (handleRequest authToken e uptime (clientRequest authToken op))) with
  | .error m => Except.error m
  | .ok j => Except.ok (clientExtract op j)

/-- A string whose first character is not JavaScript whitespace (the
empty string qualifies). -/
def headNotWs (s : String) : Bool :=
  match s.data with
  | [] => true
  | c :: _ => !isJsSpace c

/-- Well-formedness of a shared token configuration: absent, or not
beginning with a whitespace character.  Tokens produced by the
credential store (base64url) always qualify. -/
def wfToken : Option String → Bool
  | none => true
  | some t => headNotWs t

/-- State of the persisted credential file `~/.config/qmd/auth.json`:
absent, present but unreadable or not valid JSON, or parsed JSON. -/
inductive FileData where
  | unparsable
  | parsed (j : Json)

/-- Helper `readStoredToken` from auth.ts: absent file, unreadable or
unparsable contents, a missing token field and a falsy token field all
yield `none`; a truthy token field is returned as-is. -/
def readStoredToken : Option FileData → Option Json
  | none => none
  | some .unparsable => none
  | some (.parsed j) =>
    match jsGetField j "token" with
    | some v => if jsTruthy v then some v else none
    | none => none

/-- Function `getAuthToken` from auth.ts:
`process.env.QMD_AUTH_TOKEN || readStoredToken()` — the environment
value wins when truthy (non-empty), otherwise the stored token is
read.  It is a total function: no input state makes it throw. -/
def getAuthToken (envToken : Option String) (st : Option FileData) : Option Json :=
  match envToken with
  | some e => if e == "" then readStoredToken st else some (Json.str e)
  | none => readStoredToken st

/-- Function `generateToken` from auth.ts, with the random token (the
base64url encoding of 32 random bytes, always non-empty) and the
creation timestamp supplied as parameters: overwrites the credential
file with the new token object and returns the token. -/
def generateToken (token createdAt : String) (_st : Option FileData) :
    String × Option FileData :=
  (token, some (.parsed (Json.obj [("token", Json.str token),
    ("createdAt", Json.str createdAt)])))

/-- Function `revokeToken` from auth.ts: deletes the credential file
when present and reports whether a deletion occurred. -/
def revokeToken : Option FileData → Bool × Option FileData
  | none => (false, none)
  | some _ => (true, none)

/-- A concrete healthy engine used for witnesses and counterexamples. -/
def testEngine : Engine where
  embed _ _ := Except.ok (Json.str "ok")
  embedBatch _ := Except.ok (Json.arr [])
  generate _ _ := Except.ok (Json.str "gen")
  expandQuery _ _ := Except.ok (Json.arr [])
  rerank _ _ _ := Except.ok (Json.obj [])
  tokenize _ := Except.ok [1, 2]
  countTokens _ := Except.ok 2
  detokenize _ := Except.ok "text"
  modelExists _ := Except.ok (Json.obj [])
  getDeviceInfo := Except.ok (Json.obj [])

/-- A concrete engine whose operations all throw with an empty message,
exercising the `err.message || "Internal server error"` substitution. -/
def emptyMsgEngine : Engine where
  embed _ _ := Except.error ""
  embedBatch _ := Except.error ""
  generate _ _ := Except.error ""
  expandQuery _ _ := Except.error ""
  rerank _ _ _ := Except.error ""
  tokenize _ := Except.error ""
  countTokens _ := Except.error ""
  detokenize _ := Except.error ""
  modelExists _ := Except.error ""
  getDeviceInfo := Except.error ""

/-- A concrete engine whose operations all throw with message "boom". -/
def errEngine : Engine where
  embed _ _ := Except.error "boom"
  embedBatch _ := Except.error "boom"
  generate _ _ := Except.error "boom"
  expandQuery _ _ := Except.error "boom"
  rerank _ _ _ := Except.error "boom"
  tokenize _ := Except.error "boom"
  countTokens _ := Except.error "boom"
  detokenize _ := Except.error "boom"
  modelExists _ := Except.error "boom"
  getDeviceInfo := Except.error "boom"

theorem handleRequest_auth (t : Option String) (e : Engine) (up : Int) (req : Request)
    (h : authPasses t req = true) :
    handleRequest t e up req = routeRequest e up req := by
  unfold handleRequest
  rw [h]
  simp

theorem stripBearer_bearer (t : String) (h : headNotWs t = true) :
    stripBearer ("Bearer " ++ t) = t := by
  obtain ⟨l⟩ := t
  cases l with
  | nil => rfl
  | cons c cs =>
    have hc : isJsSpace c = false := by simpa [headNotWs] using h
    have h1 : stripBearer ("Bearer " ++ ⟨c :: cs⟩) = ⟨List.dropWhile isJsSpace (c :: cs)⟩ := rfl
    rw [h1, List.dropWhile_cons, hc]
    simp

theorem authPasses_bearer (T : String) (h2 : headNotWs T = true) (req : Request)
    (ha : req.authorization = some ("Bearer " ++ T)) :
    authPasses (some T) req = true := by
  simp [authPasses, ha, stripBearer_bearer T h2]

theorem authPasses_clientRequest (t : Option String) (op : Op) (h : wfToken t = true) :
    authPasses t (clientRequest t op) = true := by
  have hauth : (clientRequest t op).authorization = clientAuthHeader t := by
    cases op <;> rfl
  cases t with
  | none => simp [authPasses, optStrTruthy]
  | some s =>
    by_cases hs : s = ""
    · subst hs; simp [authPasses, optStrTruthy]
    · have hwf : headNotWs s = true := by simpa [wfToken] using h
      have hhd : (clientRequest (some s) op).authorization = some ("Bearer " ++ s) := by
        rw [hauth]
        simp [clientAuthHeader, hs]
      exact authPasses_bearer s hwf _ hhd

/-- Response-shape predicate: either status 200, or a status from the
given list paired with a body of the form `errObj m`. -/
def okOrError (statuses : List Nat) (r : Response) : Prop :=
  r.status = 200 ∨ (r.status ∈ statuses ∧ ∃ m, r.body = errObj m)

theorem okOrError_mono {s1 s2 : List Nat} {r : Response} (h : okOrError s1 r)
    (sub : ∀ x ∈ s1, x ∈ s2) : okOrError s2 r :=
  h.imp id (fun ⟨hm, hx⟩ => ⟨sub _ hm, hx⟩)

theorem wrapEngine_shape (r : Except String Json) : okOrError [500] (wrapEngine r) := by
  cases r with
  | ok j => exact Or.inl rfl
  | error m => exact Or.inr ⟨by simp [wrapEngine], errorFallback m, rfl⟩

theorem destructureGuard_shape (b : Json) (p : String) (k : Response)
    (hk : okOrError [500] k) : okOrError [500] (destructureGuard b p k) := by
  cases b with
  | null => exact Or.inr ⟨by simp [destructureGuard], destructureMsg p, rfl⟩
  | bool x => exact hk
  | num x => exact hk
  | str x => exact hk
  | arr x => exact hk
  | obj x => exact hk

theorem handlePost_shape (e : Engine) (p : String) (b : Json) :
    okOrError [404, 500] (handlePost e p b) := by
  have sub : ∀ x ∈ [500], x ∈ [404, 500] := by intro x hx; simp at hx; simp [hx]
  unfold handlePost
  split_ifs <;>
    first
      | exact okOrError_mono (destructureGuard_shape _ _ _ (wrapEngine_shape _)) sub
      | exact Or.inr ⟨by simp, _, rfl⟩

theorem routeRequest_shape (e : Engine) (up : Int) (req : Request) :
    okOrError [400, 404, 405, 500] (routeRequest e up req) := by
  have sub : ∀ x ∈ [404, 500], x ∈ [400, 404, 405, 500] := by
    intro x hx; simp at hx; rcases hx with h | h <;> simp [h]
  unfold routeRequest
  split_ifs
  · exact Or.inl rfl
  · cases e.getDeviceInfo with
    | ok j => exact Or.inl rfl
    | error m => exact Or.inr ⟨by simp, m, rfl⟩
  · exact Or.inr ⟨by simp, _, rfl⟩
  · cases hb : req.body with
    | none => simp only [hb]; exact Or.inr ⟨by simp, _, rfl⟩
    | some body => simp only [hb]; exact okOrError_mono (handlePost_shape e req.path body) sub

theorem handleRequest_shape (t : Option String) (e : Engine) (up : Int) (req : Request) :
    okOrError [400, 401, 404, 405, 500] (handleRequest t e up req) := by
  have sub : ∀ x ∈ [400, 404, 405, 500], x ∈ [400, 401, 404, 405, 500] := by
    intro x hx; simp at hx
    rcases hx with h | h | h | h <;> simp [h]
  unfold handleRequest
  split_ifs
  · exact okOrError_mono (routeRequest_shape e up req) sub
  · exact Or.inr ⟨by simp, _, rfl⟩

theorem routeRequest_status_ne_401 (e : Engine) (up : Int) (req : Request) :
    (routeRequest e up req).status ≠ 401 := by
  rcases routeRequest_shape e up req with h | ⟨hm, _⟩
  · omega
  · simp at hm
    rcases hm with h | h | h | h <;> omega

theorem destructureGuard_not_null (b : Json) (p : String) (k : Response)
    (h : b ≠ Json.null) : destructureGuard b p k = k := by
  cases b with
  | null => exact absurd rfl h
  | bool x => rfl
  | num x => rfl
  | str x => rfl
  | arr x => rfl
  | obj x => rfl

theorem routeRequest_post (e : Engine) (up : Int) (m p : String) (a : Option String)
    (bj : Json) (hm : jsToUpper m = "POST") :
    routeRequest e up ⟨m, p, a, some bj⟩ = handlePost e p bj := by
  unfold routeRequest
  dsimp only
  rw [hm]
  simp [show (("POST" : String) == "GET") = false from rfl,
    show (("POST" : String) != "POST") = false from rfl]

theorem routeRequest_405 (e : Engine) (up : Int) (m p : String) (a : Option String)
    (b : Option Json) (hm : jsToUpper m ≠ "POST")
    (h1 : ¬(p = "/health" ∧ jsToUpper m = "GET"))
    (h2 : ¬(p = "/device" ∧ jsToUpper m = "GET")) :
    routeRequest e up ⟨m, p, a, b⟩ = sendError 405 "Method not allowed" := by
  have c1 : (p == "/health" && jsToUpper m == "GET") = false := by
    by_cases hp : p = "/health"
    · have hg : jsToUpper m ≠ "GET" := fun hg => h1 ⟨hp, hg⟩
      simp [hg]
    · simp [hp]
  have c2 : (p == "/device" && jsToUpper m == "GET") = false := by
    by_cases hp : p = "/device"
    · have hg : jsToUpper m ≠ "GET" := fun hg => h2 ⟨hp, hg⟩
      simp [hg]
    · simp [hp]
  have c3 : (jsToUpper m != "POST") = true := by simp [hm]
  unfold routeRequest
  dsimp only
  rw [c1, c2, c3]
  simp

/-- Claim C7: every response the server sends has exactly one of two
shapes — status 200 with the raw JSON-serialised result as body, or a
non-2xx status (one of 400, 401, 404, 405, 500) whose body is exactly
an object with a single string-valued error field. -/
theorem claim_C7 (t : Option String) (e : Engine) (up : Int) (req : Request) :
    (handleRequest t e up req).status = 200 ∨
      ((handleRequest t e up req).status ∈ [400, 401, 404, 405, 500] ∧
        ∃ m, (handleRequest t e up req).body = Json.obj [("error", Json.str m)]) := by
  rcases handleRequest_shape t e up req with h | ⟨hm, m, hb⟩
  · exact Or.inl h
  · exact Or.inr ⟨hm, m, by rw [hb]; rfl⟩

/-- Claim C3: with no configured token (a null token, and likewise any
non-truthy token value), no request is rejected with 401: the handler
routes every request, independently of the presence or content of the
Authorization header. -/
theorem claim_C3 (t : Option String) (e : Engine) (up : Int) (m p : String)
    (a a2 : Option String) (b : Option Json) (h : optStrTruthy t = false) :
    handleRequest t e up ⟨m, p, a, b⟩ = routeRequest e up ⟨m, p, a, b⟩ ∧
    handleRequest t e up ⟨m, p, a, b⟩ = handleRequest t e up ⟨m, p, a2, b⟩ ∧
    (handleRequest t e up ⟨m, p, a, b⟩).status ≠ 401 := by
  have hp : ∀ a3 : Option String, authPasses t ⟨m, p, a3, b⟩ = true := by
    intro a3
    simp [authPasses, h]
  have h1 := handleRequest_auth t e up ⟨m, p, a, b⟩ (hp a)
  have h2 := handleRequest_auth t e up ⟨m, p, a2, b⟩ (hp a2)
  refine ⟨h1, ?_, ?_⟩
  · rw [h1, h2]
    rfl
  · rw [h1]
    exact routeRequest_status_ne_401 e up _

/-- Witness for C3: a concrete unauthenticated server ignores a garbage
Authorization header. -/
theorem claim_C3_witness :
    optStrTruthy none = false ∧
    (handleRequest none testEngine 0 ⟨"GET", "/health", some "garbage", none⟩
        = routeRequest testEngine 0 ⟨"GET", "/health", some "garbage", none⟩ ∧
      handleRequest none testEngine 0 ⟨"GET", "/health", some "garbage", none⟩
        = handleRequest none testEngine 0 ⟨"GET", "/health", none, none⟩ ∧
      (handleRequest none testEngine 0 ⟨"GET", "/health", some "garbage", none⟩).status ≠ 401) :=
  ⟨rfl, claim_C3 none testEngine 0 "GET" "/health" (some "garbage") none none rfl⟩

/-- Claim C5: an authenticated POST whose body fails to read or to parse
as JSON is answered 400 with body error "Invalid JSON body", and the
response does not depend on the engine — the engine is not invoked. -/
theorem claim_C5 (t : Option String) (e : Engine) (up : Int) (m p : String)
    (a : Option String) (hauth : authPasses t ⟨m, p, a, none⟩ = true)
    (hm : jsToUpper m = "POST") :
    handleRequest t e up ⟨m, p, a, none⟩ = sendError 400 "Invalid JSON body" ∧
    ∀ e2 : Engine, handleRequest t e up ⟨m, p, a, none⟩ = handleRequest t e2 up ⟨m, p, a, none⟩ := by
  have key : ∀ e3 : Engine,
      handleRequest t e3 up ⟨m, p, a, none⟩ = sendError 400 "Invalid JSON body" := by
    intro e3
    rw [handleRequest_auth t e3 up _ hauth]
    unfold routeRequest
    dsimp only
    rw [hm]
    simp [show (("POST" : String) == "GET") = false from rfl,
      show (("POST" : String) != "POST") = false from rfl]
  exact ⟨key e, fun e2 => by rw [key e, key e2]⟩

/-- Witness for C5: a concrete unauthenticated POST with unparsable body
is answered 400. -/
theorem claim_C5_witness :
    (authPasses none ⟨"post", "/embed", none, none⟩ = true ∧ jsToUpper "post" = "POST") ∧
    handleRequest none testEngine 0 ⟨"post", "/embed", none, none⟩
      = sendError 400 "Invalid JSON body" :=
  ⟨⟨rfl, rfl⟩, (claim_C5 none testEngine 0 "post" "/embed" none rfl rfl).1⟩

/-- Claim C8: a proxy-client call whose HTTP response has a non-success
status fails with an error naming the request path, the status code and
the response body text (an unreadable body text is tolerated as the
empty string), and never returns a success result. -/
theorem claim_C8 (path : String) (r : HttpResp) (h : respOk r = false) :
    RemoteLLM.handleResponse path r =
      Except.error ("QMD remote " ++ path ++ " failed (" ++ toString r.status ++ "): " ++
        r.bodyText.getD "") ∧
    ∀ j, RemoteLLM.handleResponse path r ≠ Except.ok j := by
  unfold RemoteLLM.handleResponse
  rw [h]
  exact ⟨by simp, fun j hj => by simp at hj⟩

/-- Witness for C8: a concrete 500 response with readable body text. -/
theorem claim_C8_witness :
    respOk ⟨500, some "oops", none⟩ = false ∧
    RemoteLLM.handleResponse "/embed" ⟨500, some "oops", none⟩ =
      Except.error ("QMD remote " ++ "/embed" ++ " failed (" ++ toString (500 : Nat) ++ "): " ++
        (some "oops").getD "") :=
  ⟨rfl, (claim_C8 "/embed" ⟨500, some "oops", none⟩ rfl).1⟩

/-- Claim C9: with no environment override, generateToken followed by
getAuthToken returns exactly the freshly generated token (which the
cryptographic source guarantees is non-empty), and revokeToken followed
by getAuthToken returns absent. -/
theorem claim_C9 (tok ts : String) (st st2 : Option FileData) (h : tok ≠ "") :
    getAuthToken none (generateToken tok ts st).2 = some (Json.str tok) ∧
    getAuthToken none (revokeToken st2).2 = none := by
  constructor
  · simp [getAuthToken, generateToken, readStoredToken, jsGetField, lookupField, jsTruthy, h]
  · cases st2 <;> rfl

/-- Witness for C9 at a concrete token, timestamp and starting states. -/
theorem claim_C9_witness :
    ("abc" ≠ "") ∧
    (getAuthToken none (generateToken "abc" "2024-01-01" none).2 = some (Json.str "abc") ∧
      getAuthToken none (revokeToken (some (FileData.parsed Json.null))).2 = none) :=
  ⟨by decide, claim_C9 "abc" "2024-01-01" none (some (FileData.parsed Json.null)) (by decide)⟩

/-- Claim C10 (amended): getAuthToken is a total function and: returns
the environment value when that is set and non-empty; with the
environment unset (or set to the empty string, which falls back to the
file) it returns absent for a missing file, an unparsable file, a
missing token field, or a falsy token field (such as the empty string),
and returns the token field itself when that field is truthy. -/
theorem claim_C10 (env : Option String) (st : Option FileData) :
    (∀ ev, env = some ev → ev ≠ "" → getAuthToken env st = some (Json.str ev)) ∧
    (getAuthToken (some "") st = readStoredToken st) ∧
    (env = none → st = none → getAuthToken env st = none) ∧
    (env = none → st = some FileData.unparsable → getAuthToken env st = none) ∧
    (∀ j, env = none → st = some (FileData.parsed j) → jsGetField j "token" = none →
      getAuthToken env st = none) ∧
    (∀ j v, env = none → st = some (FileData.parsed j) → jsGetField j "token" = some v →
      jsTruthy v = false → getAuthToken env st = none) ∧
    (∀ j v, env = none → st = some (FileData.parsed j) → jsGetField j "token" = some v →
      jsTruthy v = true → getAuthToken env st = some v) := by
  refine ⟨?_, ?_, ?_, ?_, ?_, ?_, ?_⟩
  · intro ev hev hne
    subst hev
    simp [getAuthToken, hne]
  · simp [getAuthToken]
  · intro he hs
    subst he; subst hs
    rfl
  · intro he hs
    subst he; subst hs
    rfl
  · intro j he hs hf
    subst he; subst hs
    simp [getAuthToken, readStoredToken, hf]
  · intro j v he hs hf hv
    subst he; subst hs
    simp [getAuthToken, readStoredToken, hf, hv]
  · intro j v he hs hf hv
    subst he; subst hs
    simp [getAuthToken, readStoredToken, hf, hv]

/-- Witness for C10: a concrete environment-supplied token wins. -/
theorem claim_C10_witness :
    getAuthToken (some "envtok") none = some (Json.str "envtok") :=
  (claim_C10 (some "envtok") none).1 "envtok" rfl (by decide)

/-- Counterexample to C10 as stated: with no environment override and a
persisted file whose token field is present but empty, getAuthToken
returns absent rather than the token field; and an environment variable
set to the empty string is ignored in favour of the stored token. -/
theorem claim_C10_counterexample :
    jsGetField (Json.obj [("token", Json.str "")]) "token" = some (Json.str "") ∧
    getAuthToken none (some (FileData.parsed (Json.obj [("token", Json.str "")]))) = none ∧
    getAuthToken (some "") (some (FileData.parsed (Json.obj [("token", Json.str "x")])))
      = some (Json.str "x") :=
  ⟨rfl, rfl, rfl⟩

/-- Claim C2 (amended): for a server configured with a non-empty token T
that does not begin with a whitespace character, a request whose
Authorization header is the concatenation of "Bearer ", possibly more
whitespace, and T passes authentication (the handler behaves exactly as
routing with no authentication check); a request with no Authorization
header, or any header whose value after `stripBearer` differs from T
(wrong token or malformed Bearer prefix), receives 401 before any
routing, on every path and method including /health and /device. -/
theorem claim_C2 (T : String) (e : Engine) (up : Int) (h1 : T ≠ "")
    (h2 : headNotWs T = true) :
    (∀ m p b, handleRequest (some T) e up ⟨m, p, some ("Bearer " ++ T), b⟩
        = routeRequest e up ⟨m, p, some ("Bearer " ++ T), b⟩) ∧
    (∀ m p b, handleRequest (some T) e up ⟨m, p, none, b⟩ = sendError 401 "Unauthorized") ∧
    (∀ m p b hdr, stripBearer hdr ≠ T →
      handleRequest (some T) e up ⟨m, p, some hdr, b⟩ = sendError 401 "Unauthorized") := by
  refine ⟨?_, ?_, ?_⟩
  · intro m p b
    exact handleRequest_auth _ _ _ _ (authPasses_bearer T h2 _ rfl)
  · intro m p b
    have hfail : authPasses (some T) ⟨m, p, none, b⟩ = false := by
      simp [authPasses, optStrTruthy, h1]
    unfold handleRequest
    rw [hfail]
    simp
  · intro m p b hdr hne
    have hfail : authPasses (some T) ⟨m, p, some hdr, b⟩ = false := by
      simp [authPasses, optStrTruthy, h1, hne]
    unfold handleRequest
    rw [hfail]
    simp

/-- Witness for C2 at the concrete token "tok": Bearer header accepted,
missing header rejected. -/
theorem claim_C2_witness :
    ("tok" ≠ "" ∧ headNotWs "tok" = true) ∧
    handleRequest (some "tok") testEngine 7 ⟨"GET", "/health", some ("Bearer " ++ "tok"), none⟩
      = routeRequest testEngine 7 ⟨"GET", "/health", some ("Bearer " ++ "tok"), none⟩ ∧
    handleRequest (some "tok") testEngine 7 ⟨"GET", "/health", none, none⟩
      = sendError 401 "Unauthorized" :=
  ⟨⟨by decide, by decide⟩,
    (claim_C2 "tok" testEngine 7 (by decide) (by decide)).1 "GET" "/health" none,
    (claim_C2 "tok" testEngine 7 (by decide) (by decide)).2.1 "GET" "/health" none⟩

/-- Counterexample to C2 as stated: with the configured token " x"
(which begins with a space), the header "Bearer " ++ " x" is rejected
with 401 — the greedy whitespace strip swallows the token's leading
space — although the claim requires every `Bearer T` request to pass;
the same request would be answered 200 by the routing the claim
expects. -/
theorem claim_C2_counterexample :
    handleRequest (some " x") testEngine 0 ⟨"GET", "/health", some ("Bearer " ++ " x"), none⟩
      = sendError 401 "Unauthorized" ∧
    routeRequest testEngine 0 ⟨"GET", "/health", some ("Bearer " ++ " x"), none⟩
      = sendJSON 200 (Json.obj [("status", Json.str "ok"), ("uptime", Json.num 0)]) :=
  ⟨rfl, rfl⟩

/-- The nine POST inference routes of the server. -/
def inferencePaths : List String :=
  ["/embed", "/embed-batch", "/generate", "/expand-query", "/rerank",
    "/tokenize", "/count-tokens", "/detokenize", "/model-exists"]

/-- Claim C4 (amended): for every authenticated request, a non-POST
method on any path other than GET /health and GET /device — known or
unknown — receives 405 with error "Method not allowed"; a POST request
to a path outside the nine inference routes whose body parses as JSON
receives 404 with error "Unknown route: <path>". -/
theorem claim_C4 (t : Option String) (e : Engine) (up : Int) (m p : String)
    (a : Option String) (b : Option Json)
    (hauth : authPasses t ⟨m, p, a, b⟩ = true) :
    (jsToUpper m ≠ "POST" → ¬(p = "/health" ∧ jsToUpper m = "GET") →
      ¬(p = "/device" ∧ jsToUpper m = "GET") →
      handleRequest t e up ⟨m, p, a, b⟩ = sendError 405 "Method not allowed") ∧
    (∀ bj, jsToUpper m = "POST" → b = some bj → p ∉ inferencePaths →
      handleRequest t e up ⟨m, p, a, b⟩ = sendError 404 ("Unknown route: " ++ p)) := by
  constructor
  · intro hm hh hd
    rw [handleRequest_auth t e up _ hauth]
    exact routeRequest_405 e up m p a b hm hh hd
  · intro bj hm hb hnp
    subst hb
    rw [handleRequest_auth t e up _ hauth, routeRequest_post e up m p a bj hm]
    obtain ⟨n1, n2, n3, n4, n5, n6, n7, n8, n9⟩ :
        p ≠ "/embed" ∧ p ≠ "/embed-batch" ∧ p ≠ "/generate" ∧ p ≠ "/expand-query" ∧
          p ≠ "/rerank" ∧ p ≠ "/tokenize" ∧ p ≠ "/count-tokens" ∧ p ≠ "/detokenize" ∧
          p ≠ "/model-exists" := by
      simpa [inferencePaths] using hnp
    unfold handlePost
    simp [n1, n2, n3, n4, n5, n6, n7, n8, n9]

/-- Witness for C4: a DELETE to an unknown path yields 405, a POST to an
unknown path with a JSON body yields 404. -/
theorem claim_C4_witness :
    (authPasses none ⟨"DELETE", "/weird", none, none⟩ = true ∧
      authPasses none ⟨"POST", "/weird", none, some Json.null⟩ = true) ∧
    handleRequest none testEngine 0 ⟨"DELETE", "/weird", none, none⟩
      = sendError 405 "Method not allowed" ∧
    handleRequest none testEngine 0 ⟨"POST", "/weird", none, some Json.null⟩
      = sendError 404 ("Unknown route: " ++ "/weird") :=
  ⟨⟨rfl, rfl⟩,
    (claim_C4 none testEngine 0 "DELETE" "/weird" none none rfl).1
      (by decide) (by decide) (by decide),
    (claim_C4 none testEngine 0 "POST" "/weird" none (some Json.null) rfl).2
      Json.null rfl rfl (by decide)⟩

/-- Counterexample to C4 as stated: an authenticated GET to the unknown
path /nonexistent is answered 405, not 404 — the method check precedes
route matching, so the unknown-route 404 is only reachable for POST
requests. -/
theorem claim_C4_counterexample :
    handleRequest none testEngine 0 ⟨"GET", "/nonexistent", none, none⟩
      = sendError 405 "Method not allowed" ∧
    (handleRequest none testEngine 0 ⟨"GET", "/nonexistent", none, none⟩).status ≠ 404 :=
  ⟨rfl, by decide⟩

/-- Claim C6 (amended): for every authenticated POST to a known
inference path whose body parses as JSON (to a non-null value), if the
invoked engine operation throws with message msg, the server responds
500 with body error `errorFallback msg` — the engine message itself
when non-empty, and "Internal server error" when the engine message is
empty — and the handling of any stream of subsequent requests is
unchanged: a failed request never terminates the listener. -/
theorem claim_C6 (t : Option String) (e : Engine) (up : Int) (m pa : String)
    (a : Option String) (b : Json) (msg : String)
    (hauth : authPasses t ⟨m, pa, a, some b⟩ = true)
    (hm : jsToUpper m = "POST") (hb : b ≠ Json.null) :
    (pa = "/embed" → e.embed (jsGetField b "text") (jsGetField b "options") = Except.error msg →
      handleRequest t e up ⟨m, pa, a, some b⟩ = sendError 500 (errorFallback msg)) ∧
    (pa = "/embed-batch" → e.embedBatch (jsGetField b "texts") = Except.error msg →
      handleRequest t e up ⟨m, pa, a, some b⟩ = sendError 500 (errorFallback msg)) ∧
    (pa = "/generate" → e.generate (jsGetField b "prompt") (jsGetField b "options")
        = Except.error msg →
      handleRequest t e up ⟨m, pa, a, some b⟩ = sendError 500 (errorFallback msg)) ∧
    (pa = "/expand-query" → e.expandQuery (jsGetField b "query") (jsGetField b "options")
        = Except.error msg →
      handleRequest t e up ⟨m, pa, a, some b⟩ = sendError 500 (errorFallback msg)) ∧
    (pa = "/rerank" → e.rerank (jsGetField b "query") (jsGetField b "documents")
        (jsGetField b "options") = Except.error msg →
      handleRequest t e up ⟨m, pa, a, some b⟩ = sendError 500 (errorFallback msg)) ∧
    (pa = "/tokenize" → e.tokenize (jsGetField b "text") = Except.error msg →
      handleRequest t e up ⟨m, pa, a, some b⟩ = sendError 500 (errorFallback msg)) ∧
    (pa = "/count-tokens" → e.countTokens (jsGetField b "text") = Except.error msg →
      handleRequest t e up ⟨m, pa, a, some b⟩ = sendError 500 (errorFallback msg)) ∧
    (pa = "/detokenize" → e.detokenize (jsGetField b "tokens") = Except.error msg →
      handleRequest t e up ⟨m, pa, a, some b⟩ = sendError 500 (errorFallback msg)) ∧
    (pa = "/model-exists" → e.modelExists (jsGetField b "model") = Except.error msg →
      handleRequest t e up ⟨m, pa, a, some b⟩ = sendError 500 (errorFallback msg)) ∧
    (∀ rest, serveAll t e up (⟨m, pa, a, some b⟩ :: rest)
      = handleRequest t e up ⟨m, pa, a, some b⟩ :: serveAll t e up rest) := by
  refine ⟨?_, ?_, ?_, ?_, ?_, ?_, ?_, ?_, ?_, fun rest => rfl⟩
  · intro hp herr
    subst hp
    rw [handleRequest_auth t e up _ hauth, routeRequest_post e up m "/embed" a b hm]
    rw [show handlePost e "/embed" b = destructureGuard b "text"
      (wrapEngine (e.embed (jsGetField b "text") (jsGetField b "options"))) from rfl]
    rw [destructureGuard_not_null b "text" _ hb, herr]
    rfl
  · intro hp herr
    subst hp
    rw [handleRequest_auth t e up _ hauth, routeRequest_post e up m "/embed-batch" a b hm]
    rw [show handlePost e "/embed-batch" b = destructureGuard b "texts"
      (wrapEngine (e.embedBatch (jsGetField b "texts"))) from rfl]
    rw [destructureGuard_not_null b "texts" _ hb, herr]
    rfl
  · intro hp herr
    subst hp
    rw [handleRequest_auth t e up _ hauth, routeRequest_post e up m "/generate" a b hm]
    rw [show handlePost e "/generate" b = destructureGuard b "prompt"
      (wrapEngine (e.generate (jsGetField b "prompt") (jsGetField b "options"))) from rfl]
    rw [destructureGuard_not_null b "prompt" _ hb, herr]
    rfl
  · intro hp herr
    subst hp
    rw [handleRequest_auth t e up _ hauth, routeRequest_post e up m "/expand-query" a b hm]
    rw [show handlePost e "/expand-query" b = destructureGuard b "query"
      (wrapEngine (e.expandQuery (jsGetField b "query") (jsGetField b "options"))) from rfl]
    rw [destructureGuard_not_null b "query" _ hb, herr]
    rfl
  · intro hp herr
    subst hp
    rw [handleRequest_auth t e up _ hauth, routeRequest_post e up m "/rerank" a b hm]
    rw [show handlePost e "/rerank" b = destructureGuard b "query"
      (wrapEngine (e.rerank (jsGetField b "query") (jsGetField b "documents")
        (jsGetField b "options"))) from rfl]
    rw [destructureGuard_not_null b "query" _ hb, herr]
    rfl
  · intro hp herr
    subst hp
    rw [handleRequest_auth t e up _ hauth, routeRequest_post e up m "/tokenize" a b hm]
    rw [show handlePost e "/tokenize" b = destructureGuard b "text"
      (wrapEngine ((e.tokenize (jsGetField b "text")).map
        (fun ts => Json.obj [("tokens", Json.arr (ts.map Json.num))]))) from rfl]
    rw [destructureGuard_not_null b "text" _ hb, herr]
    rfl
  · intro hp herr
    subst hp
    rw [handleRequest_auth t e up _ hauth, routeRequest_post e up m "/count-tokens" a b hm]
    rw [show handlePost e "/count-tokens" b = destructureGuard b "text"
      (wrapEngine ((e.countTokens (jsGetField b "text")).map
        (fun n => Json.obj [("count", Json.num n)]))) from rfl]
    rw [destructureGuard_not_null b "text" _ hb, herr]
    rfl
  · intro hp herr
    subst hp
    rw [handleRequest_auth t e up _ hauth, routeRequest_post e up m "/detokenize" a b hm]
    rw [show handlePost e "/detokenize" b = destructureGuard b "tokens"
      (wrapEngine ((e.detokenize (jsGetField b "tokens")).map
        (fun s => Json.obj [("text", Json.str s)]))) from rfl]
    rw [destructureGuard_not_null b "tokens" _ hb, herr]
    rfl
  · intro hp herr
    subst hp
    rw [handleRequest_auth t e up _ hauth, routeRequest_post e up m "/model-exists" a b hm]
    rw [show handlePost e "/model-exists" b = destructureGuard b "model"
      (wrapEngine (e.modelExists (jsGetField b "model"))) from rfl]
    rw [destructureGuard_not_null b "model" _ hb, herr]
    rfl

/-- Witness for C6: a concrete engine throwing "boom" on /embed yields a
500 with that message. -/
theorem claim_C6_witness :
    (authPasses none ⟨"POST", "/embed", none, some (Json.obj [])⟩ = true ∧
      jsToUpper "POST" = "POST" ∧ Json.obj [] ≠ Json.null) ∧
    handleRequest none errEngine 0 ⟨"POST", "/embed", none, some (Json.obj [])⟩
      = sendError 500 (errorFallback "boom") :=
  ⟨⟨rfl, rfl, fun h => Json.noConfusion h⟩,
    (claim_C6 none errEngine 0 "POST" "/embed" none (Json.obj []) "boom" rfl rfl
      (fun h => Json.noConfusion h)).1 rfl rfl⟩

/-- Counterexample to C6 as stated: an engine throwing with the empty
message produces the body error "Internal server error", not the empty
engine message the claim prescribes. -/
theorem claim_C6_counterexample :
    handleRequest none emptyMsgEngine 0 ⟨"POST", "/embed", none, some (Json.obj [])⟩
      = sendError 500 "Internal server error" ∧
    handleRequest none emptyMsgEngine 0 ⟨"POST", "/embed", none, some (Json.obj [])⟩
      ≠ sendError 500 "" :=
  ⟨rfl, fun h => absurd (congrArg (fun resp => stringify resp.body) h) (by decide)⟩

/-- Claim C1 (amended): for every operation and all arguments, a proxy
client pointed at a server configured with the same token — where a
set, non-empty token must not begin with a whitespace character — and
backed by a healthy inference engine (the direct engine invocation
succeeds) returns exactly the result of invoking the operation directly
on that engine. -/
theorem claim_C1 (t : Option String) (e : Engine) (up : Int) (op : Op) (r : Json)
    (ht : wfToken t = true) (hok : directCall e op = Except.ok r) :
    remoteCall t e up op = Except.ok (some r) := by
  have hap := authPasses_clientRequest t op ht
  cases op with
  | embed text options =>
    rw [show directCall e (Op.embed text options)
      = e.embed (some (Json.str text)) options from rfl] at hok
    have hopts : jsGetField (encodeBody (Op.embed text options)) "options" = options := by
      cases options <;> rfl
    unfold remoteCall
    rw [handleRequest_auth _ _ _ _ hap]
    rw [show clientRequest t (Op.embed text options)
      = ⟨"POST", "/embed", clientAuthHeader t, some (encodeBody (Op.embed text options))⟩ from rfl]
    rw [routeRequest_post e up "POST" "/embed" (clientAuthHeader t)
      (encodeBody (Op.embed text options)) rfl]
    rw [show handlePost e "/embed" (encodeBody (Op.embed text options))
      = wrapEngine (e.embed (some (Json.str text))
        (jsGetField (encodeBody (Op.embed text options)) "options")) from rfl]
    rw [hopts, hok]
    rfl
  | embedBatch texts =>
    rw [show directCall e (Op.embedBatch texts)
      = e.embedBatch (some (Json.arr (texts.map Json.str))) from rfl] at hok
    unfold remoteCall
    rw [handleRequest_auth _ _ _ _ hap]
    rw [show clientRequest t (Op.embedBatch texts)
      = ⟨"POST", "/embed-batch", clientAuthHeader t,
        some (encodeBody (Op.embedBatch texts))⟩ from rfl]
    rw [routeRequest_post e up "POST" "/embed-batch" (clientAuthHeader t)
      (encodeBody (Op.embedBatch texts)) rfl]
    rw [show handlePost e "/embed-batch" (encodeBody (Op.embedBatch texts))
      = wrapEngine (e.embedBatch (some (Json.arr (texts.map Json.str)))) from rfl]
    rw [hok]
    rfl
  | generate prompt options =>
    rw [show directCall e (Op.generate prompt options)
      = e.generate (some (Json.str prompt)) options from rfl] at hok
    have hopts : jsGetField (encodeBody (Op.generate prompt options)) "options" = options := by
      cases options <;> rfl
    unfold remoteCall
    rw [handleRequest_auth _ _ _ _ hap]
    rw [show clientRequest t (Op.generate prompt options)
      = ⟨"POST", "/generate", clientAuthHeader t,
        some (encodeBody (Op.generate prompt options))⟩ from rfl]
    rw [routeRequest_post e up "POST" "/generate" (clientAuthHeader t)
      (encodeBody (Op.generate prompt options)) rfl]
    rw [show handlePost e "/generate" (encodeBody (Op.generate prompt options))
      = wrapEngine (e.generate (some (Json.str prompt))
        (jsGetField (encodeBody (Op.generate prompt options)) "options")) from rfl]
    rw [hopts, hok]
    rfl
  | expandQuery query options =>
    rw [show directCall e (Op.expandQuery query options)
      = e.expandQuery (some (Json.str query)) options from rfl] at hok
    have hopts : jsGetField (encodeBody (Op.expandQuery query options)) "options" = options := by
      cases options <;> rfl
    unfold remoteCall
    rw [handleRequest_auth _ _ _ _ hap]
    rw [show clientRequest t (Op.expandQuery query options)
      = ⟨"POST", "/expand-query", clientAuthHeader t,
        some (encodeBody (Op.expandQuery query options))⟩ from rfl]
    rw [routeRequest_post e up "POST" "/expand-query" (clientAuthHeader t)
      (encodeBody (Op.expandQuery query options)) rfl]
    rw [show handlePost e "/expand-query" (encodeBody (Op.expandQuery query options))
      = wrapEngine (e.expandQuery (some (Json.str query))
        (jsGetField (encodeBody (Op.expandQuery query options)) "options")) from rfl]
    rw [hopts, hok]
    rfl
  | rerank query documents options =>
    rw [show directCall e (Op.rerank query documents options)
      = e.rerank (some (Json.str query)) (some (Json.arr documents)) options from rfl] at hok
    have hopts : jsGetField (encodeBody (Op.rerank query documents options)) "options"
        = options := by
      cases options <;> rfl
    unfold remoteCall
    rw [handleRequest_auth _ _ _ _ hap]
    rw [show clientRequest t (Op.rerank query documents options)
      = ⟨"POST", "/rerank", clientAuthHeader t,
        some (encodeBody (Op.rerank query documents options))⟩ from rfl]
    rw [routeRequest_post e up "POST" "/rerank" (clientAuthHeader t)
      (encodeBody (Op.rerank query documents options)) rfl]
    rw [show handlePost e "/rerank" (encodeBody (Op.rerank query documents options))
      = wrapEngine (e.rerank (some (Json.str query)) (some (Json.arr documents))
        (jsGetField (encodeBody (Op.rerank query documents options)) "options")) from rfl]
    rw [hopts, hok]
    rfl
  | tokenize text =>
    rw [show directCall e (Op.tokenize text)
      = (e.tokenize (some (Json.str text))).map
        (fun ts => Json.arr (ts.map Json.num)) from rfl] at hok
    cases hts : e.tokenize (some (Json.str text)) with
    | error msg =>
      rw [hts] at hok
      exact absurd hok (by simp [Except.map])
    | ok ts =>
      rw [hts] at hok
      simp only [Except.map, Except.ok.injEq] at hok
      subst hok
      unfold remoteCall
      rw [handleRequest_auth _ _ _ _ hap]
      rw [show clientRequest t (Op.tokenize text)
        = ⟨"POST", "/tokenize", clientAuthHeader t,
          some (encodeBody (Op.tokenize text))⟩ from rfl]
      rw [routeRequest_post e up "POST" "/tokenize" (clientAuthHeader t)
        (encodeBody (Op.tokenize text)) rfl]
      rw [show handlePost e "/tokenize" (encodeBody (Op.tokenize text))
        = wrapEngine ((e.tokenize (some (Json.str text))).map
          (fun ts2 => Json.obj [("tokens", Json.arr (ts2.map Json.num))])) from rfl]
      rw [hts]
      rfl
  | countTokens text =>
    rw [show directCall e (Op.countTokens text)
      = (e.countTokens (some (Json.str text))).map Json.num from rfl] at hok
    cases hts : e.countTokens (some (Json.str text)) with
    | error msg =>
      rw [hts] at hok
      exact absurd hok (by simp [Except.map])
    | ok n =>
      rw [hts] at hok
      simp only [Except.map, Except.ok.injEq] at hok
      subst hok
      unfold remoteCall
      rw [handleRequest_auth _ _ _ _ hap]
      rw [show clientRequest t (Op.countTokens text)
        = ⟨"POST", "/count-tokens", clientAuthHeader t,
          some (encodeBody (Op.countTokens text))⟩ from rfl]
      rw [routeRequest_post e up "POST" "/count-tokens" (clientAuthHeader t)
        (encodeBody (Op.countTokens text)) rfl]
      rw [show handlePost e "/count-tokens" (encodeBody (Op.countTokens text))
        = wrapEngine ((e.countTokens (some (Json.str text))).map
          (fun n2 => Json.obj [("count", Json.num n2)])) from rfl]
      rw [hts]
      rfl
  | detokenize tokens =>
    rw [show directCall e (Op.detokenize tokens)
      = (e.detokenize (some (Json.arr (tokens.map Json.num)))).map Json.str from rfl] at hok
    cases hts : e.detokenize (some (Json.arr (tokens.map Json.num))) with
    | error msg =>
      rw [hts] at hok
      exact absurd hok (by simp [Except.map])
    | ok s =>
      rw [hts] at hok
      simp only [Except.map, Except.ok.injEq] at hok
      subst hok
      unfold remoteCall
      rw [handleRequest_auth _ _ _ _ hap]
      rw [show clientRequest t (Op.detokenize tokens)
        = ⟨"POST", "/detokenize", clientAuthHeader t,
          some (encodeBody (Op.detokenize tokens))⟩ from rfl]
      rw [routeRequest_post e up "POST" "/detokenize" (clientAuthHeader t)
        (encodeBody (Op.detokenize tokens)) rfl]
      rw [show handlePost e "/detokenize" (encodeBody (Op.detokenize tokens))
        = wrapEngine ((e.detokenize (some (Json.arr (tokens.map Json.num)))).map
          (fun s2 => Json.obj [("text", Json.str s2)])) from rfl]
      rw [hts]
      rfl
  | modelExists model =>
    rw [show directCall e (Op.modelExists model)
      = e.modelExists (some (Json.str model)) from rfl] at hok
    unfold remoteCall
    rw [handleRequest_auth _ _ _ _ hap]
    rw [show clientRequest t (Op.modelExists model)
      = ⟨"POST", "/model-exists", clientAuthHeader t,
        some (encodeBody (Op.modelExists model))⟩ from rfl]
    rw [routeRequest_post e up "POST" "/model-exists" (clientAuthHeader t)
      (encodeBody (Op.modelExists model)) rfl]
    rw [show handlePost e "/model-exists" (encodeBody (Op.modelExists model))
      = wrapEngine (e.modelExists (some (Json.str model))) from rfl]
    rw [hok]
    rfl
  | deviceInfo =>
    rw [show directCall e Op.deviceInfo = e.getDeviceInfo from rfl] at hok
    unfold remoteCall
    rw [handleRequest_auth _ _ _ _ hap]
    rw [show clientRequest t Op.deviceInfo
      = ⟨"GET", "/device", clientAuthHeader t, none⟩ from rfl]
    rw [show routeRequest e up ⟨"GET", "/device", clientAuthHeader t, none⟩
      = (match e.getDeviceInfo with
          | Except.ok info => sendJSON 200 info
          | Except.error m => sendError 500 m) from rfl]
    rw [hok]
    rfl

/-- Witness for C1: the tokenize operation proxied through a server with
the matching token "secret" agrees with the direct engine call. -/
theorem claim_C1_witness :
    (wfToken (some "secret") = true ∧
      directCall testEngine (Op.tokenize "hi") = Except.ok (Json.arr [Json.num 1, Json.num 2])) ∧
    remoteCall (some "secret") testEngine 0 (Op.tokenize "hi")
      = Except.ok (some (Json.arr [Json.num 1, Json.num 2])) :=
  ⟨⟨by decide, rfl⟩,
    claim_C1 (some "secret") testEngine 0 (Op.tokenize "hi")
      (Json.arr [Json.num 1, Json.num 2]) (by decide) rfl⟩

/-- Counterexample to C1 as stated: with the matching token " x"
configured on both sides (a token beginning with a space), the direct
engine call succeeds but the proxied call fails with a 401-carrying
error — the greedy Bearer whitespace strip on the server swallows the
token's leading space. -/
theorem claim_C1_counterexample :
    directCall testEngine (Op.embed "hi" none) = Except.ok (Json.str "ok") ∧
    remoteCall (some " x") testEngine 0 (Op.embed "hi" none)
      = Except.error ("QMD remote /embed failed (401): " ++ stringify (errObj "Unauthorized")) :=
  ⟨rfl, rfl⟩
